import Mathlib

/-!
Shallow embedding of the expense-ledger engine of the repository
(src/Main.py and src/importtkinterastk.py, two revisions of the same
application).  Numeric values are modelled as rationals; Python's
`round(x, 2)` (round-half-to-even) is modelled by `round2`; Python's
falsy `or` fallbacks on numbers and strings are modelled by `getQ` /
`getS`; text fields that are parsed with `float(...)` are modelled by
`Entrada` (empty / unparsable / parsed value); `strptime` date parsing
is a library primitive passed in as a `String → Option Nat` function.
-/

/-- Python round(x, 2): round half to even on the second decimal. -/
def round2 (x : ℚ) : ℚ :=
  let y := x * 100
  let f : ℤ := Int.floor y
  let frac := y - (f : ℚ)
  let n : ℤ :=
    if frac < 1/2 then f
    else if 1/2 < frac then f + 1
    else if f % 2 = 0 then f else f + 1
  (n : ℚ) / 100

/-- IVA = 0.16, the fixed tax rate of both source files. -/
def IVA : ℚ := 16/100

/-- Python falsy fallback on a numeric cell: a missing cell and a zero
cell both fall through to the next candidate of an `or` chain. -/
def getQ (x : Option ℚ) : Option ℚ :=
  match x with
  | none => none
  | some v => if v = 0 then none else some v

/-- Python falsy fallback on a string cell: a missing cell and an empty
string both fall through. -/
def getS (x : Option String) : Option String :=
  match x with
  | none => none
  | some v => if v = "" then none else some v

/-- The dataclass RegistroGasto, shared by both revisions. -/
structure RegistroGasto where
  item : Int
  tipo : String
  factura : String
  descripcion : String
  unidad : String
  cantidad : ℚ
  precio_sin_iva_bs : ℚ
  precio_con_iva_bs : ℚ
  precio_sin_iva_usd : ℚ
  precio_con_iva_usd : ℚ
  fecha : String
  total_sin_iva : ℚ
  proveedor : String
  proyecto : String
  semana : String
  monto_manoobra_usd : ℚ
  gastos_extras_usd : ℚ
deriving DecidableEq, Repr

/-- One row of the persisted table.  Every named column of the current
schema plus the legacy columns accepted by from_dict; a `none` field is
a missing column (or a NaN cell). -/
structure Fila where
  item : Option Int
  tipo : Option String
  factura : Option String
  descripcion : Option String
  unidad : Option String
  cantidad : Option ℚ
  precio_sin_iva_bs : Option ℚ
  precio_bs : Option ℚ
  precio_con_iva_bs : Option ℚ
  precio_sin_iva_usd : Option ℚ
  precio_usd : Option ℚ
  precio_con_iva_usd : Option ℚ
  fecha : Option String
  total_sin_iva : Option ℚ
  total : Option ℚ
  proveedor : Option String
  proyecto : Option String
  semana : Option String
  monto_manoobra_usd : Option ℚ
  gastos_extras_usd : Option ℚ
deriving DecidableEq, Repr

/-- RegistroGasto.from_dict of src/Main.py (lines 76-103). -/
def RegistroGasto.from_dict (data : Fila) : RegistroGasto :=
  let precio_sin_bs := ((getQ data.precio_sin_iva_bs).orElse (fun _ => getQ data.precio_bs)).getD 0
  let precio_con_bs := (getQ data.precio_con_iva_bs).getD (round2 (precio_sin_bs * (1 + IVA)))
  let precio_sin_usd := ((getQ data.precio_sin_iva_usd).orElse (fun _ => getQ data.precio_usd)).getD 0
  let precio_con_usd := (getQ data.precio_con_iva_usd).getD precio_sin_usd
  let cantidad := (getQ data.cantidad).getD 0
  let total_sin := (getQ data.total_sin_iva).getD (precio_sin_bs * cantidad)
  { item := data.item.getD 0
    tipo := data.tipo.getD ("Factura")
    factura := data.factura.getD ("")
    descripcion := data.descripcion.getD ("")
    unidad := data.unidad.getD ("")
    cantidad := cantidad
    precio_sin_iva_bs := precio_sin_bs
    precio_con_iva_bs := precio_con_bs
    precio_sin_iva_usd := precio_sin_usd
    precio_con_iva_usd := precio_con_usd
    fecha := data.fecha.getD ("")
    total_sin_iva := total_sin
    proveedor := data.proveedor.getD ("")
    proyecto := data.proyecto.getD ("")
    semana := data.semana.getD ("")
    monto_manoobra_usd := data.monto_manoobra_usd.getD 0
    gastos_extras_usd := data.gastos_extras_usd.getD 0 }

/-- RegistroGasto.from_dict of src/importtkinterastk.py (lines 70-96);
it additionally accepts the legacy columns for the hard inclusive price
and the total, and collapses empty strings to their defaults. -/
def RegistroGasto.from_dict_alt (data : Fila) : RegistroGasto :=
  let precio_sin_bs := ((getQ data.precio_sin_iva_bs).orElse (fun _ => getQ data.precio_bs)).getD 0
  let precio_con_bs := (getQ data.precio_con_iva_bs).getD (round2 (precio_sin_bs * (1 + IVA)))
  let precio_sin_usd := ((getQ data.precio_sin_iva_usd).orElse (fun _ => getQ data.precio_usd)).getD 0
  let precio_con_usd := ((getQ data.precio_con_iva_usd).orElse (fun _ => getQ data.precio_usd)).getD 0
  let cantidad := (getQ data.cantidad).getD 0
  let total_sin := ((getQ data.total_sin_iva).orElse (fun _ => getQ data.total)).getD (precio_sin_bs * cantidad)
  { item := data.item.getD 0
    tipo := (getS data.tipo).getD ("Factura")
    factura := (getS data.factura).getD ("")
    descripcion := (getS data.descripcion).getD ("")
    unidad := (getS data.unidad).getD ("")
    cantidad := cantidad
    precio_sin_iva_bs := precio_sin_bs
    precio_con_iva_bs := precio_con_bs
    precio_sin_iva_usd := precio_sin_usd
    precio_con_iva_usd := precio_con_usd
    fecha := (getS data.fecha).getD ("")
    total_sin_iva := total_sin
    proveedor := (getS data.proveedor).getD ("")
    proyecto := (getS data.proyecto).getD ("")
    semana := (getS data.semana).getD ("")
    monto_manoobra_usd := (getQ data.monto_manoobra_usd).getD 0
    gastos_extras_usd := (getQ data.gastos_extras_usd).getD 0 }

/-- Serialization used by _guardar_datos in both revisions:
`asdict(r)` followed by the column rename produces exactly one cell per
dataclass field; the legacy columns are not produced. -/
def RegistroGasto.toFila (r : RegistroGasto) : Fila :=
  { item := some r.item
    tipo := some r.tipo
    factura := some r.factura
    descripcion := some r.descripcion
    unidad := some r.unidad
    cantidad := some r.cantidad
    precio_sin_iva_bs := some r.precio_sin_iva_bs
    precio_bs := none
    precio_con_iva_bs := some r.precio_con_iva_bs
    precio_sin_iva_usd := some r.precio_sin_iva_usd
    precio_usd := none
    precio_con_iva_usd := some r.precio_con_iva_usd
    fecha := some r.fecha
    total_sin_iva := some r.total_sin_iva
    total := none
    proveedor := some r.proveedor
    proyecto := some r.proyecto
    semana := some r.semana
    monto_manoobra_usd := some r.monto_manoobra_usd
    gastos_extras_usd := some r.gastos_extras_usd }

/-- Body of _recalcular_items: assign consecutive item numbers from n. -/
def recalcularAux : Int → List RegistroGasto → List RegistroGasto
  | _, [] => []
  | n, r :: rs => { r with item := n } :: recalcularAux (n + 1) rs

/-- GestorGastos._recalcular_items (both revisions): renumber the list 1..N. -/
def recalcularItems (rs : List RegistroGasto) : List RegistroGasto :=
  recalcularAux 1 rs

/-- The invariant of the spec: entries[i].sequenceNumber == i + 1. -/
def SecuenciaDensa (rs : List RegistroGasto) : Prop :=
  ∀ i : Fin rs.length, (rs.get i).item = (i.val : Int) + 1

instance (rs : List RegistroGasto) : Decidable (SecuenciaDensa rs) := by
  unfold SecuenciaDensa
  infer_instance

/-- GestorGastos._guardar_datos of src/Main.py (lines 636-672), acting on
the global table: serialize the active project's list, and when the old
table is nonempty and has the Proyecto column, drop the active project's
rows and concatenate; otherwise the serialized rows replace everything. -/
def guardarDatos (hasCol : Bool) (tabla : List Fila) (proyecto : String)
    (registros : List RegistroGasto) : List Fila :=
  let df_nuevo := registros.map RegistroGasto.toFila
  if ¬ tabla.isEmpty ∧ hasCol then
    tabla.filter (fun f => !(f.proyecto == some proyecto)) ++ df_nuevo
  else df_nuevo

/-- GestorGastos._guardar_datos of src/importtkinterastk.py (lines
440-478): same merge, but a nonempty table without the Proyecto column
is kept whole before appending the new rows. -/
def guardarDatosAlt (hasCol : Bool) (tabla : List Fila) (proyecto : String)
    (registros : List RegistroGasto) : List Fila :=
  let df_nuevo := registros.map RegistroGasto.toFila
  if tabla.isEmpty then df_nuevo
  else
    let df_sin := if hasCol then tabla.filter (fun f => !(f.proyecto == some proyecto)) else tabla
    df_sin ++ df_nuevo

/-- Whether the table written by guardarDatos has a Proyecto column: the
kept slice of the old table retains it, and a nonempty serialized list
contributes it. -/
def guardarHasCol (hasCol : Bool) (tabla : List Fila) (registros : List RegistroGasto) : Bool :=
  if ¬ tabla.isEmpty ∧ hasCol then true else !registros.isEmpty

/-- GestorGastos._cargar_datos_proyecto of src/Main.py (lines 615-634):
clear the list, take the rows of the active project, parse each with
from_dict and renumber. -/
def cargarDatosProyecto (hasCol : Bool) (tabla : List Fila) (proyecto : String) :
    List RegistroGasto :=
  if tabla.isEmpty then []
  else
    let df_proj := if hasCol then tabla.filter (fun f => f.proyecto == some proyecto) else []
    recalcularItems (df_proj.map RegistroGasto.from_dict)

/-- In-memory state of GestorGastos that the engine operations touch. -/
structure Gestor where
  registros : List RegistroGasto
  precio_dolar : ℚ
  proyecto : String
  tabla : List Fila
  tablaTieneProyecto : Bool
  registro_en_edicion : Option Nat
deriving DecidableEq, Repr

/-- GestorGastos._set_dolar loop body (Main.py lines 683-696 and
importtkinterastk.py lines 484-488): a nonzero local price has its hard
counterpart recomputed, dividing only when the rate is positive; a zero
local price leaves the hard field untouched. -/
def actualizarUSD (precio_dolar : ℚ) (registro : RegistroGasto) : RegistroGasto :=
  let registro1 :=
    if registro.precio_sin_iva_bs ≠ 0 then
      { registro with precio_sin_iva_usd :=
          if precio_dolar > 0 then round2 (registro.precio_sin_iva_bs / precio_dolar) else 0 }
    else registro
  if registro1.precio_con_iva_bs ≠ 0 then
    { registro1 with precio_con_iva_usd :=
        if precio_dolar > 0 then round2 (registro1.precio_con_iva_bs / precio_dolar) else 0 }
  else registro1

/-- GestorGastos._set_dolar (Main.py lines 674-698): the input is the
result of float(..) on the entry text, `none` when it fails to parse; a
parse failure leaves the state untouched, any parsed value is stored and
the hard fields of the entries are recomputed. -/
def setDolar (entrada : Option ℚ) (s : Gestor) : Gestor :=
  match entrada with
  | none => s
  | some v =>
    { s with precio_dolar := v, registros := s.registros.map (actualizarUSD v) }

/-- A text field that is parsed with float(...): empty after strip,
nonempty but unparsable, or parsed to a value. -/
inductive Entrada (α : Type) where
  | vacia
  | invalida
  | val (a : α)
deriving DecidableEq, Repr

/-- float(text) if text else None, inside a try/except: `none` is the
raised ValueError. -/
def entradaMonto (e : Entrada ℚ) : Option (Option ℚ) :=
  match e with
  | .vacia => some none
  | .invalida => none
  | .val v => some (some v)

/-- float(text or 0): an empty field parses to 0, an unparsable one
raises (`none`). -/
def entradaOr0 (e : Entrada ℚ) : Option ℚ :=
  match e with
  | .vacia => some 0
  | .invalida => none
  | .val v => some v

/-- Whether the field text is empty after strip. -/
def entradaVacia (e : Entrada ℚ) : Bool :=
  match e with
  | .vacia => true
  | _ => false

/-- The two form modes of the combo box. -/
inductive Modo where
  | factura
  | manoDeObra
deriving DecidableEq, Repr

/-- The raw contents of the entry widgets when the add button fires. -/
structure Formulario where
  factura : String
  descripcion : String
  unidad : String
  cantidad : Entrada ℚ
  precio_sin : Entrada ℚ
  precio_con : Entrada ℚ
  fecha : String
  proveedor : String
  semana : String
  monto_mano : Entrada ℚ
  gastos_extras : Entrada ℚ
deriving DecidableEq, Repr

/-- Common tail of _agregar_o_actualizar and _eliminar_gasto: store the
renumbered list and persist it with _guardar_datos of Main.py. -/
def guardarEstadoMain (s : Gestor) (registros2 : List RegistroGasto) : Gestor :=
  { s with registros := registros2
           tabla := guardarDatos s.tablaTieneProyecto s.tabla s.proyecto registros2
           tablaTieneProyecto := guardarHasCol s.tablaTieneProyecto s.tabla registros2
           registro_en_edicion := none }

/-- Same tail with _guardar_datos of importtkinterastk.py. -/
def guardarEstadoAlt (s : Gestor) (registros2 : List RegistroGasto) : Gestor :=
  { s with registros := registros2
           tabla := guardarDatosAlt s.tablaTieneProyecto s.tabla s.proyecto registros2
           tablaTieneProyecto := guardarHasCol s.tablaTieneProyecto s.tabla registros2
           registro_en_edicion := none }

/-- The Mano de obra record built by Main.py lines 771-789: local and
hard prices all zero, the amounts kept verbatim. -/
def crearManoMain (fechaTexto descripcion factura unidad proveedor semana proyecto : String)
    (nItem : Int) (cantidad monto gastos : ℚ) : RegistroGasto :=
  { item := nItem
    tipo := "Mano de obra"
    factura := factura
    descripcion := descripcion
    unidad := unidad
    cantidad := cantidad
    precio_sin_iva_bs := 0
    precio_con_iva_bs := 0
    precio_sin_iva_usd := 0
    precio_con_iva_usd := 0
    fecha := fechaTexto
    total_sin_iva := 0
    proveedor := proveedor
    proyecto := proyecto
    semana := semana
    monto_manoobra_usd := monto
    gastos_extras_usd := gastos }

/-- The Mano de obra record built by importtkinterastk.py lines 559-581:
the hard amount is converted to a local amount at the day's rate and the
local price is the same with and without tax. -/
def crearManoAlt (fechaTexto descripcion proveedor semana proyecto : String)
    (nItem : Int) (precio_dolar monto gastos : ℚ) : RegistroGasto :=
  let monto_bs := round2 (monto * precio_dolar)
  { item := nItem
    tipo := "Mano de obra"
    factura := ""
    descripcion := descripcion
    unidad := ""
    cantidad := 1
    precio_sin_iva_bs := monto_bs
    precio_con_iva_bs := monto_bs
    precio_sin_iva_usd := monto
    precio_con_iva_usd := monto
    fecha := fechaTexto
    total_sin_iva := monto_bs
    proveedor := proveedor
    proyecto := proyecto
    semana := semana
    monto_manoobra_usd := monto
    gastos_extras_usd := gastos }

/-- GestorGastos._agregar_o_actualizar of src/Main.py (lines 700-800).
Every validation failure (and the uncaught ValueError of the Mano de
obra branch) leaves the state untouched; `parse` is strptime on
DD/MM/YYYY. -/
def agregarMain (parse : String → Option Nat) (modo : Modo) (f : Formulario)
    (s : Gestor) : Gestor :=
  if f.descripcion.trim == "" then s
  else
    let fechaTexto := f.fecha.trim
    if fechaTexto != "" && (parse fechaTexto).isNone then s
    else
      match modo with
      | .factura =>
        if s.precio_dolar ≤ 0 then s
        else if f.factura.trim == "" || f.unidad.trim == "" || entradaVacia f.cantidad ||
            entradaVacia f.precio_sin || entradaVacia f.precio_con || fechaTexto == "" ||
            f.proveedor.trim == "" then s
        else
          match f.cantidad, f.precio_sin, f.precio_con with
          | .val cantidad, .val precio_sin, .val precio_con =>
            let precio_sin_usd :=
              if s.precio_dolar > 0 then round2 (precio_sin / s.precio_dolar) else 0
            let precio_con_usd :=
              if s.precio_dolar > 0 then round2 (precio_con / s.precio_dolar) else 0
            let total_sin := round2 (precio_sin * cantidad)
            let registro : RegistroGasto :=
              { item := (s.registros.length : Int) + 1
                tipo := "Factura"
                factura := f.factura
                descripcion := f.descripcion
                unidad := f.unidad
                cantidad := cantidad
                precio_sin_iva_bs := precio_sin
                precio_con_iva_bs := precio_con
                precio_sin_iva_usd := precio_sin_usd
                precio_con_iva_usd := precio_con_usd
                fecha := fechaTexto
                total_sin_iva := total_sin
                proveedor := f.proveedor
                proyecto := s.proyecto
                semana := ""
                monto_manoobra_usd := 0
                gastos_extras_usd := 0 }
            match s.registro_en_edicion with
            | some i =>
              if i < s.registros.length then
                guardarEstadoMain s
                  (recalcularItems (s.registros.set i { registro with item := (i : Int) + 1 }))
              else s
            | none => guardarEstadoMain s (recalcularItems (s.registros ++ [registro]))
          | _, _, _ => s
      | .manoDeObra =>
        if f.semana.trim == "" then s
        else
          match entradaOr0 f.monto_mano, entradaOr0 f.gastos_extras, entradaOr0 f.cantidad with
          | some monto, some gastos, some cant =>
            let registro := crearManoMain fechaTexto f.descripcion f.factura f.unidad
              f.proveedor f.semana s.proyecto ((s.registros.length : Int) + 1) cant monto gastos
            match s.registro_en_edicion with
            | some i =>
              if i < s.registros.length then
                guardarEstadoMain s
                  (recalcularItems (s.registros.set i { registro with item := (i : Int) + 1 }))
              else s
            | none => guardarEstadoMain s (recalcularItems (s.registros ++ [registro]))
          | _, _, _ => s

/-- GestorGastos._agregar_o_actualizar of src/importtkinterastk.py
(lines 493-591).  String values are stripped before storing; the Mano de
obra branch also requires a positive rate and derives the local amounts
from the hard amount. -/
def agregarAlt (parse : String → Option Nat) (modo : Modo) (f : Formulario)
    (s : Gestor) : Gestor :=
  if f.descripcion.trim == "" then s
  else
    let fechaTexto := f.fecha.trim
    if fechaTexto != "" && (parse fechaTexto).isNone then s
    else
      match modo with
      | .factura =>
        if s.precio_dolar ≤ 0 then s
        else if f.factura.trim == "" || f.unidad.trim == "" || entradaVacia f.cantidad ||
            entradaVacia f.precio_sin || entradaVacia f.precio_con || fechaTexto == "" ||
            f.proveedor.trim == "" then s
        else
          match f.cantidad, f.precio_sin, f.precio_con with
          | .val cantidad, .val precio_sin, .val precio_con =>
            let precio_sin_usd :=
              if s.precio_dolar > 0 then round2 (precio_sin / s.precio_dolar) else 0
            let precio_con_usd :=
              if s.precio_dolar > 0 then round2 (precio_con / s.precio_dolar) else 0
            let total_sin := round2 (precio_sin * cantidad)
            let registro : RegistroGasto :=
              { item := (s.registros.length : Int) + 1
                tipo := "Factura"
                factura := f.factura.trim
                descripcion := f.descripcion.trim
                unidad := f.unidad.trim
                cantidad := cantidad
                precio_sin_iva_bs := precio_sin
                precio_con_iva_bs := precio_con
                precio_sin_iva_usd := precio_sin_usd
                precio_con_iva_usd := precio_con_usd
                fecha := fechaTexto
                total_sin_iva := total_sin
                proveedor := f.proveedor.trim
                proyecto := s.proyecto
                semana := ""
                monto_manoobra_usd := 0
                gastos_extras_usd := 0 }
            match s.registro_en_edicion with
            | some i =>
              if i < s.registros.length then
                guardarEstadoAlt s (recalcularItems (s.registros.set i registro))
              else s
            | none => guardarEstadoAlt s (recalcularItems (s.registros ++ [registro]))
          | _, _, _ => s
      | .manoDeObra =>
        match f.monto_mano with
        | .val monto =>
          let gastosParse :=
            match f.gastos_extras with
            | .vacia => some (0 : ℚ)
            | .invalida => none
            | .val v => some v
          match gastosParse with
          | none => s
          | some gastos =>
            if s.precio_dolar ≤ 0 then s
            else
              let registro := crearManoAlt fechaTexto f.descripcion.trim f.proveedor.trim
                f.semana.trim s.proyecto ((s.registros.length : Int) + 1) s.precio_dolar
                monto gastos
              match s.registro_en_edicion with
              | some i =>
                if i < s.registros.length then
                  guardarEstadoAlt s (recalcularItems (s.registros.set i registro))
                else s
              | none => guardarEstadoAlt s (recalcularItems (s.registros ++ [registro]))
        | _ => s

/-- Insert into a list kept in decreasing order. -/
def insertarDesc (i : Nat) : List Nat → List Nat
  | [] => [i]
  | j :: js => if j ≤ i then i :: j :: js else j :: insertarDesc i js

/-- sorted(indices, reverse=True). -/
def ordenarDesc : List Nat → List Nat
  | [] => []
  | i :: is => insertarDesc i (ordenarDesc is)

/-- GestorGastos._eliminar_gasto of src/Main.py (lines 802-819), after
the user confirms: pop the selected view indices highest first (an
out-of-range pop is skipped), renumber and persist. -/
def eliminarMain (idxs : List Nat) (s : Gestor) : Gestor :=
  if idxs.isEmpty then s
  else
    let registros1 := (ordenarDesc idxs).foldl (fun acc i => acc.eraseIdx i) s.registros
    guardarEstadoMain s (recalcularItems registros1)

/-- GestorGastos._eliminar_gasto of src/importtkinterastk.py (lines
593-609): drop the entries whose item number was selected, renumber and
persist. -/
def eliminarAlt (items : List Int) (s : Gestor) : Gestor :=
  if items.isEmpty then s
  else
    let registros1 := s.registros.filter (fun r => !(items.contains r.item))
    guardarEstadoAlt s (recalcularItems registros1)

/-- GestorGastos._limpiar_lista (both revisions), after the user
confirms: clear the project's list and persist the empty slice. -/
def limpiarLista (s : Gestor) : Gestor :=
  if s.registros.isEmpty then s
  else guardarEstadoMain s []

/-- needle is an initial segment of hay. -/
def empiezaCon : List Char → List Char → Bool
  | [], _ => true
  | _ :: _, [] => false
  | a :: as, b :: bs => a == b && empiezaCon as bs

/-- Python `needle in hay` on strings, as character lists. -/
def contiene (needle : List Char) : List Char → Bool
  | [] => needle.isEmpty
  | c :: rest => empiezaCon needle (c :: rest) || contiene needle rest

/-- One registro against the parsed criteria, the loop body of
_aplicar_filtros in src/Main.py (lines 554-574): an entry passes when no
set bound excludes it; an entry with an empty or unparsable date is
excluded by any set date bound. -/
def pasaFiltroMain (parse : String → Option Nat) (texto proveedor : String)
    (fd fh : Option Nat) (mn mx : Option ℚ) (r : RegistroGasto) : Bool :=
  (texto == "" ||
    contiene texto.data
      (String.toLower (r.factura ++ " " ++ r.descripcion ++ " " ++ r.proveedor)).data) &&
  (proveedor == "" || contiene proveedor.data (String.toLower r.proveedor).data) &&
  (match fd with
   | none => true
   | some d =>
     match (if r.fecha != "" then parse r.fecha else none) with
     | none => false
     | some fv => decide (d ≤ fv)) &&
  (match fh with
   | none => true
   | some d =>
     match (if r.fecha != "" then parse r.fecha else none) with
     | none => false
     | some fv => decide (fv ≤ d)) &&
  (match mn with
   | none => true
   | some m => decide (m ≤ r.total_sin_iva)) &&
  (match mx with
   | none => true
   | some m => decide (r.total_sin_iva ≤ m))

/-- GestorGastos._aplicar_filtros of src/Main.py (lines 539-576): date
bounds are parsed with _parse_fecha, which swallows the failure, so an
unparsable date bound silently behaves as no bound; only the numeric
bounds can abort (`none`), leaving the display untouched. -/
def aplicarFiltrosMain (parse : String → Option Nat)
    (buscarTxt proveedorTxt fdTxt fhTxt : String) (montoMinTxt montoMaxTxt : Entrada ℚ)
    (registros : List RegistroGasto) : Option (List RegistroGasto) :=
  let texto := buscarTxt.toLower.trim
  let proveedor := proveedorTxt.toLower.trim
  let fd := parse fdTxt
  let fh := parse fhTxt
  match entradaMonto montoMinTxt, entradaMonto montoMaxTxt with
  | some mn, some mx =>
    some (registros.filter (pasaFiltroMain parse texto proveedor fd fh mn mx))
  | _, _ => none

/-- Loop body of _aplicar_filtros in src/importtkinterastk.py (lines
686-702); the entry's date is parsed without the emptiness pre-check. -/
def pasaFiltroAlt (parse : String → Option Nat) (texto proveedor : String)
    (fd fh : Option Nat) (mn mx : Option ℚ) (r : RegistroGasto) : Bool :=
  (texto == "" ||
    contiene texto.data
      (String.toLower (r.factura ++ " " ++ r.proveedor ++ " " ++ r.descripcion)).data) &&
  (proveedor == "" || contiene proveedor.data (String.toLower r.proveedor).data) &&
  (match fd with
   | none => true
   | some d =>
     match parse r.fecha with
     | none => false
     | some fv => decide (d ≤ fv)) &&
  (match fh with
   | none => true
   | some d =>
     match parse r.fecha with
     | none => false
     | some fv => decide (fv ≤ d)) &&
  (match mn with
   | none => true
   | some m => decide (m ≤ r.total_sin_iva)) &&
  (match mx with
   | none => true
   | some m => decide (r.total_sin_iva ≤ m))

/-- GestorGastos._aplicar_filtros of src/importtkinterastk.py (lines
664-704): a nonempty date bound that fails to parse aborts (`none`)
before any filtering, and so does an unparsable numeric bound. -/
def aplicarFiltrosAlt (parse : String → Option Nat)
    (buscarTxt proveedorTxt fdTxt fhTxt : String) (montoMinTxt montoMaxTxt : Entrada ℚ)
    (registros : List RegistroGasto) : Option (List RegistroGasto) :=
  let texto := buscarTxt.trim.toLower
  let proveedor := proveedorTxt.trim.toLower
  let fechaDesde := fdTxt.trim
  let fechaHasta := fhTxt.trim
  let fd := if fechaDesde == "" then none else parse fechaDesde
  let fh := if fechaHasta == "" then none else parse fechaHasta
  if (fechaDesde != "" && fd.isNone) || (fechaHasta != "" && fh.isNone) then none
  else
    match entradaMonto montoMinTxt, entradaMonto montoMaxTxt with
    | some mn, some mx =>
      some (registros.filter (pasaFiltroAlt parse texto proveedor fd fh mn mx))
    | _, _ => none

/-- The summary block written by _exportar_excel of src/Main.py. -/
structure Reporte where
  filas : List RegistroGasto
  presupuesto : ℚ
  total_sin_iva_bs : ℚ
  total_con_iva_bs : ℚ
  total_con_iva_usd : ℚ
  utilidad : ℚ
  porc_utilidad : ℚ
deriving DecidableEq, Repr

/-- The report sum weight: r.cantidad if r.cantidad else 1. -/
def cantidadONe (r : RegistroGasto) : ℚ :=
  if r.cantidad ≠ 0 then r.cantidad else 1

/-- GestorGastos._exportar_excel of src/Main.py (lines 875-976), with
the spreadsheet rendering stripped to the data it writes: the rows of
the requested tipo and the summary block.  Empty selections and an
empty or unparsable budget abort (`none`).  The hard total divides only
under a nonzero (truthy) rate, and the profit percentage divides only
under a nonzero (truthy) budget. -/
def exportarExcelMain (tipo : String) (registros : List RegistroGasto)
    (presupuestoTxt : Entrada ℚ) (precio_dolar : ℚ) : Option Reporte :=
  if registros.isEmpty then none
  else if (registros.filter (fun r => r.tipo == tipo)).isEmpty then none
  else
    match presupuestoTxt with
    | .val presupuesto =>
        let registros_filtrados := registros.filter (fun r => r.tipo == tipo)
        let total_sin_iva_bs := (registros_filtrados.map (fun r => r.precio_sin_iva_bs * cantidadONe r)).sum
        let total_con_iva_bs := (registros_filtrados.map (fun r => r.precio_con_iva_bs * cantidadONe r)).sum
        let total_con_iva_usd := if precio_dolar ≠ 0 then round2 (total_con_iva_bs / precio_dolar) else 0
        let utilidad := round2 (presupuesto - total_con_iva_usd)
        let porc := if presupuesto ≠ 0 then utilidad / presupuesto * 100 else 0
        some { filas := registros_filtrados
               presupuesto := presupuesto
               total_sin_iva_bs := round2 total_sin_iva_bs
               total_con_iva_bs := round2 total_con_iva_bs
               total_con_iva_usd := total_con_iva_usd
               utilidad := utilidad
               porc_utilidad := round2 porc }
    | _ => none

theorem round2_cero : round2 0 = 0 :=
  of_decide_eq_true (by with_unfolding_all rfl)

theorem getQ_roundtrip (x : ℚ) : ((getQ (some x)).orElse (fun _ => getQ none)).getD 0 = x := by
  by_cases h : x = 0 <;> simp [getQ, h]

theorem getQ_getD (x y : ℚ) : (getQ (some x)).getD y = if x = 0 then y else x := by
  by_cases h : x = 0 <;> simp [getQ, h]

theorem longitud_recalcularAux (n : Int) (rs : List RegistroGasto) :
    (recalcularAux n rs).length = rs.length := by
  induction rs generalizing n with
  | nil => rfl
  | cons r rs ih => simp [recalcularAux, ih]

theorem item_recalcularAux (n : Int) (rs : List RegistroGasto)
    (i : Fin (recalcularAux n rs).length) :
    ((recalcularAux n rs).get i).item = n + i.val := by
  induction rs generalizing n with
  | nil => exact absurd i.isLt (by simp [recalcularAux])
  | cons r rs ih =>
    rcases i with ⟨i, hi⟩
    cases i with
    | zero => simp [recalcularAux]
    | succ j =>
      have hj : j < (recalcularAux (n + 1) rs).length := by
        simpa [recalcularAux] using hi
      have h := ih (n + 1) ⟨j, hj⟩
      simp only [recalcularAux, List.get] at h ⊢
      rw [h]
      push_cast
      ring

theorem secuenciaDensa_recalcularItems (rs : List RegistroGasto) :
    SecuenciaDensa (recalcularItems rs) := by
  intro i
  exact (item_recalcularAux 1 rs i).trans (by omega)

theorem recalcularAux_fija (n : Int) (rs : List RegistroGasto)
    (h : ∀ i : Fin rs.length, (rs.get i).item = n + i.val) :
    recalcularAux n rs = rs := by
  induction rs generalizing n with
  | nil => rfl
  | cons r rs ih =>
    have h0 := h ⟨0, by simp⟩
    simp only [List.get, Nat.cast_zero, add_zero] at h0
    unfold recalcularAux
    have hr : { r with item := n } = r := by rw [← h0]
    rw [hr]
    congr 1
    refine ih (n + 1) (fun i => ?_)
    have hsucc := h ⟨i.val + 1, by simp [Nat.succ_lt_succ_iff, i.isLt]⟩
    simp only [List.get] at hsucc ⊢
    rw [hsucc]
    push_cast
    ring

theorem recalcularItems_id_de_densa (rs : List RegistroGasto) (h : SecuenciaDensa rs) :
    recalcularItems rs = rs :=
  recalcularAux_fija 1 rs (fun i => by rw [h i]; ring)

theorem registros_agregarMain (parse : String → Option Nat) (modo : Modo) (f : Formulario)
    (s : Gestor) :
    (agregarMain parse modo f s).registros = s.registros ∨
    ∃ rs, (agregarMain parse modo f s).registros = recalcularItems rs := by
  unfold agregarMain guardarEstadoMain
  repeat' (first | split | dsimp only)
  all_goals first
    | exact Or.inl rfl
    | exact Or.inr ⟨_, rfl⟩

theorem registros_agregarAlt (parse : String → Option Nat) (modo : Modo) (f : Formulario)
    (s : Gestor) :
    (agregarAlt parse modo f s).registros = s.registros ∨
    ∃ rs, (agregarAlt parse modo f s).registros = recalcularItems rs := by
  unfold agregarAlt guardarEstadoAlt
  repeat' (first | split | dsimp only)
  all_goals first
    | exact Or.inl rfl
    | exact Or.inr ⟨_, rfl⟩

/-- C5: after every add, update and delete operation, including the
multi-position delete and the clear, the active list satisfies
entries[i].sequenceNumber == i + 1 for every index i: each operation
either leaves an already dense list untouched (a rejected input) or
ends in _recalcular_items, which renumbers 1..N in list order. -/
theorem c5_renumeracion (parse : String → Option Nat) (modo : Modo) (f : Formulario)
    (s : Gestor) (idxs : List Nat) (items : List Int) :
    (SecuenciaDensa s.registros → SecuenciaDensa (agregarMain parse modo f s).registros) ∧
    (SecuenciaDensa s.registros → SecuenciaDensa (agregarAlt parse modo f s).registros) ∧
    (SecuenciaDensa s.registros → SecuenciaDensa (eliminarMain idxs s).registros) ∧
    (SecuenciaDensa s.registros → SecuenciaDensa (eliminarAlt items s).registros) ∧
    SecuenciaDensa (limpiarLista s).registros := by
  refine ⟨?_, ?_, ?_, ?_, ?_⟩
  · intro hd
    rcases registros_agregarMain parse modo f s with h | ⟨rs, h⟩
    · rw [h]; exact hd
    · rw [h]; exact secuenciaDensa_recalcularItems rs
  · intro hd
    rcases registros_agregarAlt parse modo f s with h | ⟨rs, h⟩
    · rw [h]; exact hd
    · rw [h]; exact secuenciaDensa_recalcularItems rs
  · intro hd
    unfold eliminarMain guardarEstadoMain
    split
    · exact hd
    · exact secuenciaDensa_recalcularItems _
  · intro hd
    unfold eliminarAlt guardarEstadoAlt
    split
    · exact hd
    · exact secuenciaDensa_recalcularItems _
  · unfold limpiarLista guardarEstadoMain
    split
    · next he =>
      intro i
      rw [List.isEmpty_iff] at he
      rw [he] at i
      exact absurd i.isLt (by simp)
    · intro i
      exact absurd i.isLt (by simp)

def formTestigo : Formulario :=
  { factura := "F-1", descripcion := "cemento", unidad := "kg",
    cantidad := Entrada.val 2, precio_sin := Entrada.val 100, precio_con := Entrada.val 116,
    fecha := "01/01/2024", proveedor := "ACME", semana := "",
    monto_mano := Entrada.vacia, gastos_extras := Entrada.vacia }

def gestorTestigo : Gestor :=
  { registros := [], precio_dolar := 40, proyecto := "Obra", tabla := [],
    tablaTieneProyecto := false, registro_en_edicion := none }

/-- Witness for C5 at a concrete state whose list is empty, hence dense. -/
theorem c5_renumeracion_testigo :
    SecuenciaDensa (agregarMain (fun _ => none) Modo.factura formTestigo gestorTestigo).registros ∧
    SecuenciaDensa (agregarAlt (fun _ => none) Modo.factura formTestigo gestorTestigo).registros ∧
    SecuenciaDensa (eliminarMain [0] gestorTestigo).registros ∧
    SecuenciaDensa (eliminarAlt [1] gestorTestigo).registros ∧
    SecuenciaDensa (limpiarLista gestorTestigo).registros := by
  have h := c5_renumeracion (fun _ => none) Modo.factura formTestigo gestorTestigo [0] [1]
  have hd : SecuenciaDensa gestorTestigo.registros :=
    fun i => absurd i.isLt (by simp [gestorTestigo])
  exact ⟨h.1 hd, h.2.1 hd, h.2.2.1 hd, h.2.2.2.1 hd, h.2.2.2.2⟩

/-- C2: save with a well-formed global table (one carrying the Proyecto
column) drops exactly the rows of the active project and appends the
freshly serialized list, in both revisions; every row of another
project survives, and the equation fixes the relative order. -/
theorem c2_guardar_marco (tabla : List Fila) (P : String) (regs : List RegistroGasto) :
    guardarDatos true tabla P regs =
      tabla.filter (fun f => !(f.proyecto == some P)) ++ regs.map RegistroGasto.toFila ∧
    guardarDatosAlt true tabla P regs =
      tabla.filter (fun f => !(f.proyecto == some P)) ++ regs.map RegistroGasto.toFila ∧
    ∀ f ∈ tabla, f.proyecto ≠ some P → f ∈ guardarDatos true tabla P regs := by
  have h1 : guardarDatos true tabla P regs =
      tabla.filter (fun f => !(f.proyecto == some P)) ++ regs.map RegistroGasto.toFila := by
    unfold guardarDatos
    by_cases h : tabla.isEmpty
    · rw [List.isEmpty_iff] at h
      simp [h]
    · simp [h]
  refine ⟨h1, ?_, ?_⟩
  · unfold guardarDatosAlt
    by_cases h : tabla.isEmpty
    · rw [List.isEmpty_iff] at h
      simp [h]
    · simp [h]
  · intro f hf hno
    rw [h1]
    refine List.mem_append_left _ ?_
    rw [List.mem_filter]
    exact ⟨hf, by simpa using hno⟩

def filaOtra : Fila :=
  { item := some 1, tipo := some ("Factura"), factura := some ("F-9"), descripcion := some ("arena"),
    unidad := some ("kg"), cantidad := some 3, precio_sin_iva_bs := some 10, precio_bs := none,
    precio_con_iva_bs := some 12, precio_sin_iva_usd := some 1, precio_usd := none,
    precio_con_iva_usd := some 2, fecha := some ("02/02/2024"), total_sin_iva := some 30,
    total := none, proveedor := some ("Prov"), proyecto := some ("Otra"), semana := some (""),
    monto_manoobra_usd := some 0, gastos_extras_usd := some 0 }

/-- Witness for C2: a row of another project survives the save. -/
theorem c2_guardar_marco_testigo :
    filaOtra ∈ guardarDatos true [filaOtra] "Obra" [] :=
  (c2_guardar_marco [filaOtra] "Obra" []).2.2 filaOtra (by simp) (by decide)

/-- C9: in Factura mode, _agregar_o_actualizar of both revisions
rejects the add as soon as the stored exchange rate is not positive:
the state, its entry list and its persisted table are all unchanged. -/
theorem c9_factura_requiere_dolar (parse : String → Option Nat) (f : Formulario) (s : Gestor)
    (h : s.precio_dolar ≤ 0) :
    agregarMain parse Modo.factura f s = s ∧ agregarAlt parse Modo.factura f s = s := by
  constructor
  · unfold agregarMain
    repeat' (first | split | dsimp only)
    all_goals first
      | rfl
      | exact absurd h (by assumption)
      | exact Modo.noConfusion (by assumption : Modo.factura = Modo.manoDeObra)
  · unfold agregarAlt
    repeat' (first | split | dsimp only)
    all_goals first
      | rfl
      | exact absurd h (by assumption)
      | exact Modo.noConfusion (by assumption : Modo.factura = Modo.manoDeObra)

def gestorSinDolar : Gestor :=
  { registros := [], precio_dolar := 0, proyecto := "Obra", tabla := [],
    tablaTieneProyecto := false, registro_en_edicion := none }

/-- Witness for C9: the concrete add at rate 0 is a no-op. -/
theorem c9_factura_requiere_dolar_testigo :
    agregarMain (fun _ => none) Modo.factura formTestigo gestorSinDolar = gestorSinDolar ∧
    agregarAlt (fun _ => none) Modo.factura formTestigo gestorSinDolar = gestorSinDolar :=
  c9_factura_requiere_dolar (fun _ => none) formTestigo gestorSinDolar le_rfl

/-- C10: every Labor entry built by the add operation has its inclusive
local price equal to its exclusive local price, in both revisions (0 in
Main.py, the converted amount twice in importtkinterastk.py), so its
contribution to the with-tax and without-tax report totals is the same. -/
theorem c10_mano_sin_iva (fe de fa un pr se py : String) (n : Int)
    (cant monto gastos dolar : ℚ) :
    (crearManoMain fe de fa un pr se py n cant monto gastos).precio_con_iva_bs =
      (crearManoMain fe de fa un pr se py n cant monto gastos).precio_sin_iva_bs ∧
    (crearManoAlt fe de pr se py n dolar monto gastos).precio_con_iva_bs =
      (crearManoAlt fe de pr se py n dolar monto gastos).precio_sin_iva_bs ∧
    (crearManoMain fe de fa un pr se py n cant monto gastos).precio_con_iva_bs *
        cantidadONe (crearManoMain fe de fa un pr se py n cant monto gastos) =
      (crearManoMain fe de fa un pr se py n cant monto gastos).precio_sin_iva_bs *
        cantidadONe (crearManoMain fe de fa un pr se py n cant monto gastos) ∧
    (crearManoAlt fe de pr se py n dolar monto gastos).precio_con_iva_bs *
        cantidadONe (crearManoAlt fe de pr se py n dolar monto gastos) =
      (crearManoAlt fe de pr se py n dolar monto gastos).precio_sin_iva_bs *
        cantidadONe (crearManoAlt fe de pr se py n dolar monto gastos) :=
  ⟨rfl, rfl, rfl, rfl⟩

/-- C3 (amended): after _set_dolar with a positive rate r, an entry
whose local price is nonzero gets hard = round(local / r, 2), while an
entry whose local price is zero keeps its previous hard value untouched
(the loop skips it; the code does not reset it to 0); local prices are
never modified and the rate r is stored. -/
theorem c3_tasa_cambio_amendado (s : Gestor) (r : ℚ) (hr : 0 < r) (i : Nat)
    (hi : i < (setDolar (some r) s).registros.length) (hj : i < s.registros.length) :
    ((setDolar (some r) s).registros.get ⟨i, hi⟩).precio_sin_iva_bs =
      (s.registros.get ⟨i, hj⟩).precio_sin_iva_bs ∧
    ((setDolar (some r) s).registros.get ⟨i, hi⟩).precio_con_iva_bs =
      (s.registros.get ⟨i, hj⟩).precio_con_iva_bs ∧
    ((s.registros.get ⟨i, hj⟩).precio_sin_iva_bs ≠ 0 →
      ((setDolar (some r) s).registros.get ⟨i, hi⟩).precio_sin_iva_usd =
        round2 ((s.registros.get ⟨i, hj⟩).precio_sin_iva_bs / r)) ∧
    ((s.registros.get ⟨i, hj⟩).precio_sin_iva_bs = 0 →
      ((setDolar (some r) s).registros.get ⟨i, hi⟩).precio_sin_iva_usd =
        (s.registros.get ⟨i, hj⟩).precio_sin_iva_usd) ∧
    ((s.registros.get ⟨i, hj⟩).precio_con_iva_bs ≠ 0 →
      ((setDolar (some r) s).registros.get ⟨i, hi⟩).precio_con_iva_usd =
        round2 ((s.registros.get ⟨i, hj⟩).precio_con_iva_bs / r)) ∧
    ((s.registros.get ⟨i, hj⟩).precio_con_iva_bs = 0 →
      ((setDolar (some r) s).registros.get ⟨i, hi⟩).precio_con_iva_usd =
        (s.registros.get ⟨i, hj⟩).precio_con_iva_usd) ∧
    (setDolar (some r) s).precio_dolar = r := by
  have hmap : (setDolar (some r) s).registros.get ⟨i, hi⟩ =
      actualizarUSD r (s.registros.get ⟨i, hj⟩) := by
    simp [setDolar]
  rw [hmap]
  set viejo := s.registros.get ⟨i, hj⟩ with hv
  unfold actualizarUSD
  by_cases h1 : viejo.precio_sin_iva_bs = 0 <;>
    by_cases h2 : viejo.precio_con_iva_bs = 0 <;>
    simp [h1, h2, hr, setDolar]

def registroC3 : RegistroGasto :=
  { item := 1, tipo := "Factura", factura := "", descripcion := "d", unidad := "",
    cantidad := 1, precio_sin_iva_bs := 0, precio_con_iva_bs := 0,
    precio_sin_iva_usd := 5, precio_con_iva_usd := 0, fecha := "",
    total_sin_iva := 0, proveedor := "", proyecto := "Obra", semana := "",
    monto_manoobra_usd := 0, gastos_extras_usd := 0 }

def gestorC3 : Gestor :=
  { registros := [registroC3], precio_dolar := 1, proyecto := "Obra", tabla := [],
    tablaTieneProyecto := false, registro_en_edicion := none }

/-- C3 counterexample: after setExchangeRate(2), the entry with local
price 0 and stale hard price 5 still has hard price 5, which is neither
round(0 / 2, 2) = 0 nor the 0 the claim promises for zero local prices. -/
theorem c3_tasa_cambio_contraejemplo :
    (0:ℚ) < 2 ∧
    ((setDolar (some 2) gestorC3).registros.map (fun reg => reg.precio_sin_iva_usd)) = [5] ∧
    round2 (registroC3.precio_sin_iva_bs / 2) = 0 ∧ (5:ℚ) ≠ 0 :=
  of_decide_eq_true (by with_unfolding_all rfl)

def registroC3T : RegistroGasto :=
  { item := 1, tipo := "Factura", factura := "", descripcion := "d", unidad := "",
    cantidad := 1, precio_sin_iva_bs := 100, precio_con_iva_bs := 116,
    precio_sin_iva_usd := 0, precio_con_iva_usd := 0, fecha := "",
    total_sin_iva := 100, proveedor := "", proyecto := "Obra", semana := "",
    monto_manoobra_usd := 0, gastos_extras_usd := 0 }

def gestorC3T : Gestor :=
  { registros := [registroC3T], precio_dolar := 1, proyecto := "Obra", tabla := [],
    tablaTieneProyecto := false, registro_en_edicion := none }

/-- Witness for C3 at a nonzero local price and rate 2. -/
theorem c3_tasa_cambio_amendado_testigo :
    ((setDolar (some 2) gestorC3T).registros.get
        ⟨0, of_decide_eq_true (by with_unfolding_all rfl)⟩).precio_sin_iva_usd =
      round2 ((gestorC3T.registros.get
        ⟨0, of_decide_eq_true (by with_unfolding_all rfl)⟩).precio_sin_iva_bs / 2) := by
  have h := c3_tasa_cambio_amendado gestorC3T 2 (by norm_num) 0
    (of_decide_eq_true (by with_unfolding_all rfl))
    (of_decide_eq_true (by with_unfolding_all rfl))
  exact h.2.2.1 (of_decide_eq_true (by with_unfolding_all rfl))

/-- C4 (amended): a non-numeric rate input is rejected with no mutation,
but an input parsing to r ≤ 0 is not rejected: the rate r is stored, and
every entry with a nonzero local price has the corresponding hard field
set to 0 (entries with a zero local price keep their hard fields). -/
theorem c4_set_dolar_amendado (s : Gestor) (r : ℚ) (i : Nat) (hle : r ≤ 0)
    (hi : i < (setDolar (some r) s).registros.length) (hj : i < s.registros.length) :
    setDolar none s = s ∧
    (setDolar (some r) s).precio_dolar = r ∧
    ((s.registros.get ⟨i, hj⟩).precio_sin_iva_bs ≠ 0 →
      ((setDolar (some r) s).registros.get ⟨i, hi⟩).precio_sin_iva_usd = 0) ∧
    ((s.registros.get ⟨i, hj⟩).precio_sin_iva_bs = 0 →
      ((setDolar (some r) s).registros.get ⟨i, hi⟩).precio_sin_iva_usd =
        (s.registros.get ⟨i, hj⟩).precio_sin_iva_usd) ∧
    ((s.registros.get ⟨i, hj⟩).precio_con_iva_bs ≠ 0 →
      ((setDolar (some r) s).registros.get ⟨i, hi⟩).precio_con_iva_usd = 0) ∧
    ((s.registros.get ⟨i, hj⟩).precio_con_iva_bs = 0 →
      ((setDolar (some r) s).registros.get ⟨i, hi⟩).precio_con_iva_usd =
        (s.registros.get ⟨i, hj⟩).precio_con_iva_usd) := by
  have hng : ¬ (0 < r) := not_lt.mpr hle
  have hmap : (setDolar (some r) s).registros.get ⟨i, hi⟩ =
      actualizarUSD r (s.registros.get ⟨i, hj⟩) := by
    simp [setDolar]
  refine ⟨rfl, rfl, ?_⟩
  rw [hmap]
  set viejo := s.registros.get ⟨i, hj⟩ with hv
  unfold actualizarUSD
  by_cases h1 : viejo.precio_sin_iva_bs = 0 <;>
    by_cases h2 : viejo.precio_con_iva_bs = 0 <;>
    simp [h1, h2, hng]

def registroC4 : RegistroGasto :=
  { item := 1, tipo := "Factura", factura := "", descripcion := "d", unidad := "",
    cantidad := 1, precio_sin_iva_bs := 100, precio_con_iva_bs := 116,
    precio_sin_iva_usd := 100, precio_con_iva_usd := 116, fecha := "",
    total_sin_iva := 100, proveedor := "", proyecto := "Obra", semana := "",
    monto_manoobra_usd := 0, gastos_extras_usd := 0 }

def gestorC4 : Gestor :=
  { registros := [registroC4], precio_dolar := 1, proyecto := "Obra", tabla := [],
    tablaTieneProyecto := false, registro_en_edicion := none }

/-- C4 counterexample: the input 0 parses, is ≤ 0, and the update is
not rejected: the stored rate becomes 0 and the entry's hard prices are
overwritten with 0, so the state mutates. -/
theorem c4_set_dolar_contraejemplo :
    (0:ℚ) ≤ 0 ∧
    setDolar (some 0) gestorC4 ≠ gestorC4 ∧
    (setDolar (some 0) gestorC4).precio_dolar = 0 ∧
    ((setDolar (some 0) gestorC4).registros.map (fun reg => reg.precio_sin_iva_usd)) = [0] :=
  of_decide_eq_true (by with_unfolding_all rfl)

/-- Witness for C4 at rate input 0 on a concrete state. -/
theorem c4_set_dolar_amendado_testigo :
    (setDolar (some 0) gestorC4).precio_dolar = 0 ∧
    ((setDolar (some 0) gestorC4).registros.get
        ⟨0, of_decide_eq_true (by with_unfolding_all rfl)⟩).precio_sin_iva_usd = 0 := by
  have h := c4_set_dolar_amendado gestorC4 0 0 le_rfl
    (of_decide_eq_true (by with_unfolding_all rfl))
    (of_decide_eq_true (by with_unfolding_all rfl))
  exact ⟨h.2.1, h.2.2.1 (of_decide_eq_true (by with_unfolding_all rfl))⟩

theorem roundtrip_registro (r : RegistroGasto)
    (h1 : r.precio_con_iva_bs = 0 → round2 (r.precio_sin_iva_bs * (1 + IVA)) = 0)
    (h2 : r.precio_con_iva_usd = 0 → r.precio_sin_iva_usd = 0)
    (h3 : r.total_sin_iva = 0 → r.precio_sin_iva_bs * r.cantidad = 0) :
    RegistroGasto.from_dict (RegistroGasto.toFila r) = r := by
  unfold RegistroGasto.from_dict RegistroGasto.toFila
  simp only [Option.getD_some, getQ_roundtrip, getQ_getD]
  by_cases hb : r.precio_con_iva_bs = 0 <;>
    by_cases hu : r.precio_con_iva_usd = 0 <;>
    by_cases ht : r.total_sin_iva = 0 <;>
    by_cases hc : r.cantidad = 0 <;>
    simp_all
  all_goals cases r
  all_goals simp_all

theorem filtro_guardar (hasCol : Bool) (tabla : List Fila) (P : String)
    (regs : List RegistroGasto) (hP : ∀ r ∈ regs, r.proyecto = P) :
    (guardarDatos hasCol tabla P regs).filter (fun f => f.proyecto == some P) =
      regs.map RegistroGasto.toFila := by
  have hmapa : (regs.map RegistroGasto.toFila).filter (fun f => f.proyecto == some P) =
      regs.map RegistroGasto.toFila := by
    rw [List.filter_eq_self]
    intro f hf
    rcases List.mem_map.mp hf with ⟨r, hr, rfl⟩
    simp [RegistroGasto.toFila, hP r hr]
  unfold guardarDatos
  split
  · rw [List.filter_append, hmapa, List.filter_filter]
    have : ∀ f : Fila, ((f.proyecto == some P) && !(f.proyecto == some P)) = false := by
      intro f
      cases h : (f.proyecto == some P) <;> simp [h]
    simp only [this, List.filter_false, List.nil_append]
  · exact hmapa

/-- C1 (amended): the save/load round trip reproduces the in-memory
list field-for-field provided every entry belongs to the active project,
the sequence numbers are dense, and no falsy numeric field triggers a
from_dict fallback that recomputes a different value: a zero inclusive
local price must recompute to 0, a zero inclusive hard price forces a
zero exclusive hard price, and a zero total forces price × quantity = 0.
Without those provisos the loader overwrites the zero fields. -/
theorem c1_roundtrip_amendado (hasCol : Bool) (tabla : List Fila) (P : String)
    (regs : List RegistroGasto)
    (hP : ∀ r ∈ regs, r.proyecto = P)
    (hcon : ∀ r ∈ regs, r.precio_con_iva_bs = 0 → round2 (r.precio_sin_iva_bs * (1 + IVA)) = 0)
    (husd : ∀ r ∈ regs, r.precio_con_iva_usd = 0 → r.precio_sin_iva_usd = 0)
    (htot : ∀ r ∈ regs, r.total_sin_iva = 0 → r.precio_sin_iva_bs * r.cantidad = 0)
    (hdensa : SecuenciaDensa regs) :
    cargarDatosProyecto (guardarHasCol hasCol tabla regs)
      (guardarDatos hasCol tabla P regs) P = regs := by
  have hfiltro := filtro_guardar hasCol tabla P regs hP
  have hmapa : (regs.map RegistroGasto.toFila).map RegistroGasto.from_dict = regs := by
    rw [List.map_map]
    refine (List.map_congr_left ?_).trans (List.map_id regs)
    intro r hr
    exact roundtrip_registro r (hcon r hr) (husd r hr) (htot r hr)
  unfold cargarDatosProyecto
  split
  · next hvacia =>
    rw [List.isEmpty_iff] at hvacia
    rw [hvacia] at hfiltro
    simp only [List.filter_nil] at hfiltro
    rcases List.map_eq_nil_iff.mp hfiltro.symm with h
    rw [h]
  · next hnovacia =>
    have hcolumna : guardarHasCol hasCol tabla regs = true := by
      unfold guardarHasCol
      split
      · rfl
      · next hcond =>
        by_contra hfalso
        simp only [Bool.not_eq_true, Bool.not_eq_false'] at hfalso
        rw [List.isEmpty_iff] at hfalso
        apply hnovacia
        unfold guardarDatos
        rw [if_neg hcond]
        simp [hfalso]
    rw [hcolumna]
    simp only [if_pos rfl, ite_true]
    rw [hfiltro, hmapa]
    exact recalcularItems_id_de_densa regs hdensa

def registroC1 : RegistroGasto :=
  { item := 1, tipo := "Factura", factura := "F-1", descripcion := "cemento", unidad := "kg",
    cantidad := 1, precio_sin_iva_bs := 100, precio_con_iva_bs := 0,
    precio_sin_iva_usd := 0, precio_con_iva_usd := 0, fecha := "01/01/2024",
    total_sin_iva := 100, proveedor := "ACME", proyecto := "Obra", semana := "",
    monto_manoobra_usd := 0, gastos_extras_usd := 0 }

/-- C1 counterexample: an entry with exclusive local price 100 and
inclusive local price 0 (a value the add operation accepts) is not
reproduced by save-then-load: from_dict treats the persisted 0 as
missing and recomputes the inclusive price as 116. -/
theorem c1_roundtrip_contraejemplo :
    cargarDatosProyecto (guardarHasCol true [] [registroC1])
      (guardarDatos true [] ("Obra") [registroC1]) ("Obra") ≠ [registroC1] ∧
    ((cargarDatosProyecto (guardarHasCol true [] [registroC1])
      (guardarDatos true [] ("Obra") [registroC1]) ("Obra")).map
        (fun reg => reg.precio_con_iva_bs)) = [116] :=
  of_decide_eq_true (by with_unfolding_all rfl)

def registroC1T : RegistroGasto :=
  { item := 1, tipo := "Factura", factura := "F-1", descripcion := "cemento", unidad := "kg",
    cantidad := 2, precio_sin_iva_bs := 100, precio_con_iva_bs := 116,
    precio_sin_iva_usd := 4, precio_con_iva_usd := 5, fecha := "01/01/2024",
    total_sin_iva := 200, proveedor := "ACME", proyecto := "Obra", semana := "",
    monto_manoobra_usd := 0, gastos_extras_usd := 0 }

def filaAjena : Fila :=
  { item := some 7, tipo := some ("Factura"), factura := some ("F-7"), descripcion := some ("grava"),
    unidad := some ("kg"), cantidad := some 1, precio_sin_iva_bs := some 50, precio_bs := none,
    precio_con_iva_bs := some 58, precio_sin_iva_usd := some 2, precio_usd := none,
    precio_con_iva_usd := some 3, fecha := some ("03/03/2024"), total_sin_iva := some 50,
    total := none, proveedor := some ("Prov"), proyecto := some ("Otra"), semana := some (""),
    monto_manoobra_usd := some 0, gastos_extras_usd := some 0 }

/-- Witness for C1 on a one-entry list with no falsy fields, saved into
a table holding another project's row. -/
theorem c1_roundtrip_amendado_testigo :
    cargarDatosProyecto (guardarHasCol true [filaAjena] [registroC1T])
      (guardarDatos true [filaAjena] ("Obra") [registroC1T]) ("Obra") = [registroC1T] :=
  c1_roundtrip_amendado true [filaAjena] "Obra" [registroC1T]
    (of_decide_eq_true (by with_unfolding_all rfl))
    (of_decide_eq_true (by with_unfolding_all rfl))
    (of_decide_eq_true (by with_unfolding_all rfl))
    (of_decide_eq_true (by with_unfolding_all rfl))
    (of_decide_eq_true (by with_unfolding_all rfl))

/-- C6 (amended): the exported summary never divides by a zero
denominator: with exchange rate exactly 0 the hard total is 0, and with
budget exactly 0 the profit percentage is 0; under any nonzero rate,
even a negative one, the hard total is the rounded division — the
guards are truthiness tests (= 0), not the sign tests (≤ 0) of the
claim. -/
theorem c6_reporte_amendado (tipo : String) (regs : List RegistroGasto) (pres : Entrada ℚ)
    (rate : ℚ) (rep : Reporte) (h : exportarExcelMain tipo regs pres rate = some rep) :
    (rate = 0 → rep.total_con_iva_usd = 0) ∧
    (rep.presupuesto = 0 → rep.porc_utilidad = 0) ∧
    (rate ≠ 0 → rep.total_con_iva_usd =
      round2 ((((regs.filter (fun r => r.tipo == tipo)).map
        (fun r => r.precio_con_iva_bs * cantidadONe r)).sum) / rate)) := by
  unfold exportarExcelMain at h
  repeat' split at h
  all_goals first
    | exact Option.noConfusion h
    | (simp only [Option.some.injEq] at h
       subst h
       refine ⟨fun h0 => ?_, fun h0 => ?_, fun h0 => ?_⟩
       all_goals simp_all [round2_cero])

def registroC6 : RegistroGasto :=
  { item := 1, tipo := "Factura", factura := "F-1", descripcion := "cemento", unidad := "kg",
    cantidad := 1, precio_sin_iva_bs := 100, precio_con_iva_bs := 116,
    precio_sin_iva_usd := 0, precio_con_iva_usd := 0, fecha := "01/01/2024",
    total_sin_iva := 100, proveedor := "ACME", proyecto := "Obra", semana := "",
    monto_manoobra_usd := 0, gastos_extras_usd := 0 }

set_option maxRecDepth 4000 in
/-- C6 counterexample: with budget -50 ≤ 0 and rate 40 the report's
profit percentage is 105.8, not the 0 the claim requires for every
non-positive budget: the code only guards the exact zero. -/
theorem c6_reporte_contraejemplo :
    ((-50 : ℚ) ≤ 0) ∧
    (exportarExcelMain ("Factura") [registroC6] (Entrada.val (-50)) 40).map
      Reporte.porc_utilidad = some (529/5) ∧
    ((529 : ℚ)/5 ≠ 0) :=
  of_decide_eq_true (by with_unfolding_all rfl)

def reporteC6T : Reporte :=
  { filas := [registroC6], presupuesto := 0, total_sin_iva_bs := 100,
    total_con_iva_bs := 116, total_con_iva_usd := 0, utilidad := 0, porc_utilidad := 0 }

/-- Witness for C6 with rate 0 and budget 0. -/
theorem c6_reporte_amendado_testigo :
    reporteC6T.total_con_iva_usd = 0 ∧ reporteC6T.porc_utilidad = 0 := by
  have h := c6_reporte_amendado ("Factura") [registroC6] (Entrada.val 0) 0 reporteC6T
    (of_decide_eq_true (by with_unfolding_all rfl))
  exact ⟨h.1 rfl, h.2.1 rfl⟩

/-- C7 (amended): an unparsable numeric bound aborts filtering with an
error before any filtering, leaving the display untouched, in both
revisions; an unparsable date bound aborts only in the
importtkinterastk.py revision — in Main.py the swallowed parse failure
makes the date bound silently behave as absent and filtering proceeds. -/
theorem c7_filtros_amendado (parse : String → Option Nat) (b p fdT fhT : String)
    (mn mx : Entrada ℚ) (regs : List RegistroGasto) :
    ((mn = Entrada.invalida ∨ mx = Entrada.invalida) →
      aplicarFiltrosMain parse b p fdT fhT mn mx regs = none ∧
      aplicarFiltrosAlt parse b p fdT fhT mn mx regs = none) ∧
    (fdT.trim ≠ "" → parse fdT.trim = none →
      aplicarFiltrosAlt parse b p fdT fhT mn mx regs = none) ∧
    (fhT.trim ≠ "" → parse fhT.trim = none →
      aplicarFiltrosAlt parse b p fdT fhT mn mx regs = none) ∧
    (mn ≠ Entrada.invalida → mx ≠ Entrada.invalida →
      (aplicarFiltrosMain parse b p fdT fhT mn mx regs).isSome = true) := by
  refine ⟨?_, ?_, ?_, ?_⟩
  · intro hinv
    rcases hinv with rfl | rfl
    · rcases mx with _ | _ | v <;>
        simp [aplicarFiltrosMain, aplicarFiltrosAlt, entradaMonto]
    · rcases mn with _ | _ | v <;>
        simp [aplicarFiltrosMain, aplicarFiltrosAlt, entradaMonto]
  · intro h1 h2
    simp [aplicarFiltrosAlt, h1, h2]
  · intro h1 h2
    simp [aplicarFiltrosAlt, h1, h2]
  · intro hmn hmx
    rcases mn with _ | _ | vmn <;> rcases mx with _ | _ | vmx <;>
      first
        | exact absurd rfl hmn
        | exact absurd rfl hmx
        | simp [aplicarFiltrosMain, entradaMonto]

def registroC7 : RegistroGasto :=
  { item := 1, tipo := "Factura", factura := "F-1", descripcion := "cemento", unidad := "kg",
    cantidad := 1, precio_sin_iva_bs := 10, precio_con_iva_bs := 12,
    precio_sin_iva_usd := 0, precio_con_iva_usd := 0, fecha := "",
    total_sin_iva := 10, proveedor := "ACME", proyecto := "Obra", semana := "",
    monto_manoobra_usd := 0, gastos_extras_usd := 0 }

/-- C7 counterexample: in Main.py, with the date-from bound set to an
unparsable string and a numeric bound 50, no error is raised and the
filtering is applied anyway: the entry with total 10 is dropped and the
display is replaced by the filtered (empty) set. -/
theorem c7_filtros_contraejemplo :
    (fun _ => (none : Option Nat)) ("banana") = none ∧
    aplicarFiltrosMain (fun _ => none) "" "" ("banana") "" (Entrada.val 50) Entrada.vacia
      [registroC7] = some [] ∧
    some ([] : List RegistroGasto) ≠ none :=
  of_decide_eq_true (by with_unfolding_all rfl)

/-- Witness for C7: the numeric-bound error in both revisions and the
date-bound error in the importtkinterastk.py revision. -/
theorem c7_filtros_amendado_testigo :
    aplicarFiltrosMain (fun _ => none) "" "" "" "" Entrada.invalida Entrada.vacia
      [registroC7] = none ∧
    aplicarFiltrosAlt (fun _ => none) "" "" "" "" Entrada.invalida Entrada.vacia
      [registroC7] = none ∧
    aplicarFiltrosAlt (fun _ => none) "" "" ("banana") "" Entrada.vacia Entrada.vacia
      [registroC7] = none := by
  have h1 := c7_filtros_amendado (fun _ => none) "" "" "" "" Entrada.invalida Entrada.vacia
    [registroC7]
  have h2 := c7_filtros_amendado (fun _ => none) "" "" ("banana") "" Entrada.vacia Entrada.vacia
    [registroC7]
  exact ⟨(h1.1 (Or.inl rfl)).1, (h1.1 (Or.inl rfl)).2,
    h2.2.1 (of_decide_eq_true (by with_unfolding_all rfl)) rfl⟩

/-- C8 (amended): from_dict (both revisions) derives the inclusive
local price as round(exclusive × 1.16, 2) when the persisted inclusive
cell is missing, and also when it is present but holds 0 (Python's
falsy `or`); a supplied inclusive price wins only when it is nonzero. -/
theorem c8_precio_con_iva_amendado (f : Fila) (v : ℚ) :
    ((f.precio_con_iva_bs = none ∨ f.precio_con_iva_bs = some 0) →
      (RegistroGasto.from_dict f).precio_con_iva_bs =
        round2 ((RegistroGasto.from_dict f).precio_sin_iva_bs * (1 + IVA)) ∧
      (RegistroGasto.from_dict_alt f).precio_con_iva_bs =
        round2 ((RegistroGasto.from_dict_alt f).precio_sin_iva_bs * (1 + IVA))) ∧
    (f.precio_con_iva_bs = some v → v ≠ 0 →
      (RegistroGasto.from_dict f).precio_con_iva_bs = v ∧
      (RegistroGasto.from_dict_alt f).precio_con_iva_bs = v) := by
  constructor
  · rintro (h | h) <;>
      simp [RegistroGasto.from_dict, RegistroGasto.from_dict_alt, h, getQ]
  · intro h hv
    simp [RegistroGasto.from_dict, RegistroGasto.from_dict_alt, h, getQ, hv]

def filaC8 : Fila :=
  { item := some 1, tipo := some ("Factura"), factura := some ("F-1"),
    descripcion := some ("cemento"), unidad := some ("kg"), cantidad := some 1,
    precio_sin_iva_bs := some 100, precio_bs := none, precio_con_iva_bs := some 0,
    precio_sin_iva_usd := some 0, precio_usd := none, precio_con_iva_usd := some 0,
    fecha := some ("01/01/2024"), total_sin_iva := some 100, total := none,
    proveedor := some ("ACME"), proyecto := some ("Obra"), semana := some (""),
    monto_manoobra_usd := some 0, gastos_extras_usd := some 0 }

/-- C8 counterexample: a row supplying both prices, with inclusive
price 0, is not kept: from_dict recomputes 116 over the supplied 0. -/
theorem c8_precio_con_iva_contraejemplo :
    filaC8.precio_con_iva_bs = some 0 ∧
    (RegistroGasto.from_dict filaC8).precio_con_iva_bs = 116 ∧
    (RegistroGasto.from_dict_alt filaC8).precio_con_iva_bs = 116 ∧
    ((116 : ℚ) ≠ 0) :=
  of_decide_eq_true (by with_unfolding_all rfl)

def filaC8T : Fila :=
  { item := some 1, tipo := some ("Factura"), factura := some ("F-1"),
    descripcion := some ("cemento"), unidad := some ("kg"), cantidad := some 1,
    precio_sin_iva_bs := some 100, precio_bs := none, precio_con_iva_bs := none,
    precio_sin_iva_usd := some 0, precio_usd := none, precio_con_iva_usd := some 0,
    fecha := some ("01/01/2024"), total_sin_iva := some 100, total := none,
    proveedor := some ("ACME"), proyecto := some ("Obra"), semana := some (""),
    monto_manoobra_usd := some 0, gastos_extras_usd := some 0 }

/-- Witness for C8 at a row with no inclusive price supplied. -/
theorem c8_precio_con_iva_amendado_testigo :
    (RegistroGasto.from_dict filaC8T).precio_con_iva_bs =
      round2 ((RegistroGasto.from_dict filaC8T).precio_sin_iva_bs * (1 + IVA)) ∧
    (RegistroGasto.from_dict_alt filaC8T).precio_con_iva_bs =
      round2 ((RegistroGasto.from_dict_alt filaC8T).precio_sin_iva_bs * (1 + IVA)) :=
  (c8_precio_con_iva_amendado filaC8T 0).1 (Or.inl rfl)




